import Mathlib

/-!
Verification of the core business logic of the Superstore analytics
repository (dashboard_logic.py): the RFM segmentation engine
(calculate_rfm), the discount-cap ROI simulator (calculate_roi_impact)
and the input validator (validate_data).  Dataframes are embedded as
lists of records, currency amounts and rates as rationals, dates as
integer day numbers.  Library calls (groupby/agg, rank, qcut) are
embedded by their documented input/output behaviour on the arguments the
source passes them.
-/

namespace Superstore

/-! ## Discount-cap ROI simulator (dashboard_logic.py, calculate_roi_impact) -/

/-- A row of the order table as consumed by calculate_roi_impact:
columns Discount, Sales, Profit. -/
structure SalesRow where
  discount : ℚ
  sales : ℚ
  profit : ℚ
deriving DecidableEq

/-- The dict returned by calculate_roi_impact. -/
structure ROIResult where
  original_profit : ℚ
  new_profit : ℚ
  profit_gain : ℚ
  revenue_risk : ℚ
deriving DecidableEq

/-- Per-row New_Sales column: rows with Discount above the cap (mask_cap)
get Sales * (1 - vol_loss) with vol_loss = (Discount - cap) * elasticity;
the remaining rows are NaN and are filled with Sales by the fillna call. -/
def rowNewSales (discount_cap elasticity : ℚ) (row : SalesRow) : ℚ :=
  if discount_cap < row.discount then
    row.sales * (1 - (row.discount - discount_cap) * elasticity)
  else
    row.sales

/-- Per-row New_Profit column: New_Sales - cost with cost = Sales - Profit. -/
def rowNewProfit (discount_cap elasticity : ℚ) (row : SalesRow) : ℚ :=
  rowNewSales discount_cap elasticity row - (row.sales - row.profit)

/-- calculate_roi_impact of dashboard_logic.py lines 59-99: zeros on an
empty frame, otherwise the four aggregates over the simulated columns. -/
def calculate_roi_impact (df : List SalesRow) (discount_cap : ℚ) (elasticity : ℚ) :
    ROIResult :=
  if df.isEmpty then ⟨0, 0, 0, 0⟩
  else
    { original_profit := (df.map SalesRow.profit).sum
      new_profit := (df.map (rowNewProfit discount_cap elasticity)).sum
      profit_gain := (df.map (rowNewProfit discount_cap elasticity)).sum -
        (df.map SalesRow.profit).sum
      revenue_risk := (df.map SalesRow.sales).sum -
        (df.map (rowNewSales discount_cap elasticity)).sum }

/-- The concrete two-row table of the specification scenario:
(Sales 1000, Profit 200, Discount 0.3) and (Sales 2000, Profit 400, Discount 0.4). -/
def roiScenarioDf : List SalesRow := [⟨3/10, 1000, 200⟩, ⟨2/5, 2000, 400⟩]

lemma calculate_roi_impact_nil (cap el : ℚ) :
    calculate_roi_impact [] cap el = ⟨0, 0, 0, 0⟩ := rfl

lemma calculate_roi_impact_of_ne_nil (df : List SalesRow) (cap el : ℚ) (h : df ≠ []) :
    calculate_roi_impact df cap el =
      { original_profit := (df.map SalesRow.profit).sum
        new_profit := (df.map (rowNewProfit cap el)).sum
        profit_gain := (df.map (rowNewProfit cap el)).sum - (df.map SalesRow.profit).sum
        revenue_risk := (df.map SalesRow.sales).sum -
          (df.map (rowNewSales cap el)).sum } := by
  cases df with
  | nil => exact absurd rfl h
  | cons r t => rfl

lemma sum_map_rowNewProfit (df : List SalesRow) (cap el : ℚ) :
    (df.map (rowNewProfit cap el)).sum =
      (df.map (rowNewSales cap el)).sum - (df.map SalesRow.sales).sum +
        (df.map SalesRow.profit).sum := by
  induction df with
  | nil => simp
  | cons r t ih =>
      simp only [List.map_cons, List.sum_cons, ih, rowNewProfit]
      ring

lemma rowNewSales_le_sales (cap el : ℚ) (r : SalesRow)
    (hs : 0 ≤ r.sales) (hel : 0 ≤ el) : rowNewSales cap el r ≤ r.sales := by
  unfold rowNewSales
  split
  · rename_i hmask
    nlinarith [mul_nonneg (mul_nonneg hs (by linarith : (0:ℚ) ≤ r.discount - cap)) hel]
  · exact le_rfl

lemma sum_newSales_le_sum_sales (df : List SalesRow) (cap el : ℚ)
    (hrows : ∀ r ∈ df, 0 ≤ r.sales) (hel : 0 ≤ el) :
    (df.map (rowNewSales cap el)).sum ≤ (df.map SalesRow.sales).sum :=
  List.sum_le_sum (fun r hr => rowNewSales_le_sales cap el r (hrows r hr) hel)

lemma roiScenario_eval :
    calculate_roi_impact roiScenarioDf (1/5) (1/2) = ⟨600, 350, -250, 250⟩ := by
  norm_num [calculate_roi_impact, roiScenarioDf, rowNewProfit, rowNewSales]

/-- C3: on the two-row scenario table with discount_cap = 0.2 and
elasticity = 0.5, calculate_roi_impact returns original_profit 600,
new_profit 350, profit_gain -250 and revenue_risk 250. -/
theorem C3_roi_concrete_scenario :
    calculate_roi_impact roiScenarioDf (1/5) (1/2) = ⟨600, 350, -250, 250⟩ :=
  roiScenario_eval

/-- C4: for every input table and any cap and elasticity, profit_gain is
exactly the negation of revenue_risk, because each row keeps its cost
Sales - Profit fixed, so its profit change equals its sales change. -/
theorem C4_profit_gain_eq_neg_revenue_risk (df : List SalesRow) (cap el : ℚ) :
    (calculate_roi_impact df cap el).profit_gain =
      -(calculate_roi_impact df cap el).revenue_risk := by
  by_cases h : df = []
  · subst h; simp [calculate_roi_impact_nil]
  · rw [calculate_roi_impact_of_ne_nil df cap el h]
    simp only [sum_map_rowNewProfit]
    ring

/-- C6: with non-negative Sales, Discount in the unit interval and both
policy parameters in the unit interval, revenue_risk is non-negative. -/
theorem C6_revenue_risk_nonneg (df : List SalesRow) (cap el : ℚ)
    (hrows : ∀ r ∈ df, 0 ≤ r.sales ∧ 0 ≤ r.discount ∧ r.discount ≤ 1)
    (hcap0 : 0 ≤ cap) (hcap1 : cap ≤ 1) (hel0 : 0 ≤ el) (hel1 : el ≤ 1) :
    0 ≤ (calculate_roi_impact df cap el).revenue_risk := by
  by_cases h : df = []
  · subst h; simp [calculate_roi_impact_nil]
  · rw [calculate_roi_impact_of_ne_nil df cap el h]
    simp only [sub_nonneg]
    exact sum_newSales_le_sum_sales df cap el (fun r hr => (hrows r hr).1) hel0

/-- Witness for C6 at the concrete scenario input. -/
theorem C6_witness : 0 ≤ (calculate_roi_impact roiScenarioDf (1/5) (1/2)).revenue_risk :=
  C6_revenue_risk_nonneg roiScenarioDf (1/5) (1/2)
    (by norm_num [roiScenarioDf]) (by norm_num) (by norm_num) (by norm_num) (by norm_num)

/-- C7: when no row has Discount above the cap, the simulation changes
nothing: profit_gain and revenue_risk are both zero. -/
theorem C7_cap_at_or_above_all_discounts (df : List SalesRow) (cap el : ℚ)
    (h : ∀ r ∈ df, r.discount ≤ cap) :
    (calculate_roi_impact df cap el).profit_gain = 0 ∧
      (calculate_roi_impact df cap el).revenue_risk = 0 := by
  by_cases he : df = []
  · subst he; simp [calculate_roi_impact_nil]
  · have hns : df.map (rowNewSales cap el) = df.map SalesRow.sales := by
      refine List.map_congr_left (fun r hr => ?_)
      unfold rowNewSales
      rw [if_neg (not_lt.mpr (h r hr))]
    rw [calculate_roi_impact_of_ne_nil df cap el he]
    constructor
    · simp only [sum_map_rowNewProfit, hns]
      ring
    · simp [hns]

/-- Witness for C7 at a concrete input with every Discount at or below the cap. -/
theorem C7_witness :
    (calculate_roi_impact [(⟨1/10, 100, 20⟩ : SalesRow), ⟨1/5, 50, 5⟩] (1/5) (1/2)).profit_gain = 0 ∧
      (calculate_roi_impact [(⟨1/10, 100, 20⟩ : SalesRow), ⟨1/5, 50, 5⟩] (1/5) (1/2)).revenue_risk = 0 :=
  C7_cap_at_or_above_all_discounts [⟨1/10, 100, 20⟩, ⟨1/5, 50, 5⟩] (1/5) (1/2) (by norm_num)

lemma profit_gain_nonpos (df : List SalesRow) (cap el : ℚ)
    (hrows : ∀ r ∈ df, 0 ≤ r.sales) (hel0 : 0 ≤ el) :
    (calculate_roi_impact df cap el).profit_gain ≤ 0 := by
  by_cases h : df = []
  · subst h; simp [calculate_roi_impact_nil]
  · rw [calculate_roi_impact_of_ne_nil df cap el h]
    simp only [sum_map_rowNewProfit]
    have := sum_newSales_le_sum_sales df cap el hrows hel0
    linarith

/-- C5 counterexample: the claim asserts a valid input with strictly
positive profit_gain exists; in fact none does, because profit_gain is
the negation of revenue_risk, which is non-negative on every valid input. -/
theorem C5_counterexample :
    ¬ ∃ (df : List SalesRow) (cap el : ℚ),
        (∀ r ∈ df, 0 ≤ r.sales ∧ 0 ≤ r.discount ∧ r.discount ≤ 1) ∧
        0 ≤ cap ∧ cap ≤ 1 ∧ 0 ≤ el ∧ el ≤ 1 ∧
        0 < (calculate_roi_impact df cap el).profit_gain := by
  rintro ⟨df, cap, el, hrows, _, _, hel0, _, hpos⟩
  have := profit_gain_nonpos df cap el (fun r hr => (hrows r hr).1) hel0
  linarith

/-- C5 amended: for every valid input, profit_gain is at most zero, and
there is a valid input where it is strictly negative; a strictly positive
profit_gain is impossible. -/
theorem C5_amended_gain_sign (df : List SalesRow) (cap el : ℚ)
    (hrows : ∀ r ∈ df, 0 ≤ r.sales ∧ 0 ≤ r.discount ∧ r.discount ≤ 1)
    (hcap0 : 0 ≤ cap) (hcap1 : cap ≤ 1) (hel0 : 0 ≤ el) (hel1 : el ≤ 1) :
    (calculate_roi_impact df cap el).profit_gain ≤ 0 ∧
      ∃ (df2 : List SalesRow) (cap2 el2 : ℚ),
        (∀ r ∈ df2, 0 ≤ r.sales ∧ 0 ≤ r.discount ∧ r.discount ≤ 1) ∧
        0 ≤ cap2 ∧ cap2 ≤ 1 ∧ 0 ≤ el2 ∧ el2 ≤ 1 ∧
        (calculate_roi_impact df2 cap2 el2).profit_gain < 0 := by
  refine ⟨profit_gain_nonpos df cap el (fun r hr => (hrows r hr).1) hel0, ?_⟩
  refine ⟨roiScenarioDf, 1/5, 1/2, by norm_num [roiScenarioDf], by norm_num, by norm_num,
    by norm_num, by norm_num, ?_⟩
  rw [roiScenario_eval]
  norm_num

/-- Witness for C5 amended at the concrete scenario input. -/
theorem C5_amended_witness :
    (calculate_roi_impact roiScenarioDf (1/5) (1/2)).profit_gain ≤ 0 ∧
      ∃ (df2 : List SalesRow) (cap2 el2 : ℚ),
        (∀ r ∈ df2, 0 ≤ r.sales ∧ 0 ≤ r.discount ∧ r.discount ≤ 1) ∧
        0 ≤ cap2 ∧ cap2 ≤ 1 ∧ 0 ≤ el2 ∧ el2 ≤ 1 ∧
        (calculate_roi_impact df2 cap2 el2).profit_gain < 0 :=
  C5_amended_gain_sign roiScenarioDf (1/5) (1/2)
    (by norm_num [roiScenarioDf]) (by norm_num) (by norm_num) (by norm_num) (by norm_num)

/-! ## RFM segmentation engine (dashboard_logic.py, calculate_rfm) -/

/-- A row of the order table as consumed by calculate_rfm: columns
Order_Date (a day number), Customer_ID, Order_ID, Sales. -/
structure Order where
  order_date : ℤ
  customer_id : ℕ
  order_id : ℕ
  sales : ℚ
deriving DecidableEq

/-- Maximum of a column of dates, as Series.max on a non-empty column. -/
def maxDate : List ℤ → ℤ
  | [] => 0
  | x :: xs => xs.foldl max x

/-- The group keys produced by df.groupby(Customer_ID): the distinct
customer ids, in ascending order (groupby sorts keys). -/
def groupKeys (df : List Order) : List ℕ :=
  List.insertionSort (· ≤ ·) (df.map Order.customer_id).dedup

/-- The rows of one customer group. -/
def customerRows (df : List Order) (c : ℕ) : List Order :=
  df.filter (fun o => o.customer_id == c)

/-- Recency aggregate: (snapshot_date - group.Order_Date.max()).days. -/
def recencyOf (snapshot : ℤ) (rows : List Order) : ℤ :=
  snapshot - maxDate (rows.map Order.order_date)

/-- Frequency aggregate: count of the Order_ID column of the group. -/
def frequencyOf (rows : List Order) : ℕ :=
  rows.length

/-- Monetary aggregate: sum of the Sales column of the group. -/
def monetaryOf (rows : List Order) : ℚ :=
  (rows.map Order.sales).sum

/-- Series.rank(method=first): each value gets 1 plus the number of
strictly smaller values plus the number of equal values appearing
earlier. all is the whole column, prev the values before the current one. -/
def ranksFrom (all : List ℚ) : List ℚ → List ℚ → List ℕ
  | _, [] => []
  | prev, x :: xs =>
      (1 + (all.filter (fun y => decide (y < x))).length +
          (prev.filter (fun y => decide (y = x))).length) ::
        ranksFrom all (prev ++ [x]) xs

/-- Ranks of a whole column, method=first. -/
def rankFirst (l : List ℚ) : List ℕ :=
  ranksFrom l [] l

/-- Linear-interpolation quantile edge number j (of 0..5) of a sorted
value list, as numpy computes quantiles at the fractions j/5: the
position is (j/5)*(n-1) = num/5, split into integer part i and
fractional part frac. -/
def quantileEdge (sorted : List ℚ) (j : ℕ) : ℚ :=
  let n := sorted.length
  let num := j * (n - 1)
  let i := num / 5
  let frac : ℚ := (num : ℚ) / 5 - (i : ℚ)
  let lo := sorted.getD i 0
  let hi := sorted.getD (min (i + 1) (n - 1)) 0
  lo + frac * (hi - lo)

/-- The six quintile bin edges pd.qcut(values, 5) computes. -/
def qcutEdges (vals : List ℚ) : List ℚ :=
  (List.range 6).map (fun j => quantileEdge (List.insertionSort (· ≤ ·) vals) j)

/-- The 1-based bin of a value among the six edges: the first bin keeps
its left edge (include_lowest), every bin keeps its right edge. -/
def binOf (edges : List ℚ) (v : ℚ) : ℕ :=
  if v ≤ edges.getD 1 0 then 1
  else if v ≤ edges.getD 2 0 then 2
  else if v ≤ edges.getD 3 0 then 3
  else if v ≤ edges.getD 4 0 then 4
  else 5

/-- pd.qcut(vals, 5, labels, duplicates=drop): with six distinct edges,
each value gets the label of its bin; with fewer distinct edges after the
drop, the five labels no longer match the bins and qcut raises
ValueError, here none. -/
def qcut5 (vals : List ℚ) (labels : List ℕ) : Option (List ℕ) :=
  if (qcutEdges vals).dedup.length = 6 then
    some (vals.map (fun v => labels.getD (binOf (qcutEdges vals) v - 1) 0))
  else
    none

/-- One loop iteration of the score assignment of calculate_rfm:
qcut over the first-method ranks of the metric column, and on ValueError
the whole score column is the neutral 3. -/
def scoreColumn (metric : List ℚ) (labels : List ℕ) : List ℕ :=
  match qcut5 ((rankFirst metric).map (Nat.cast : ℕ → ℚ)) labels with
  | some scores => scores
  | none => metric.map (fun _ => 3)

/-- A row of the result of calculate_rfm on a non-empty input, after
reset_index: the group key, the three aggregates, the three quintile
scores R, F, M and the segment label. -/
structure RFMRow where
  customer_id : ℕ
  recency : ℤ
  frequency : ℕ
  monetary : ℚ
  r : ℕ
  f : ℕ
  m : ℕ
  segment : String
deriving DecidableEq

/-- The result frame of calculate_rfm: its column names and its rows. -/
structure RFMResult where
  columns : List String
  rows : List RFMRow
deriving DecidableEq

/-- The segment rule of calculate_rfm (the int conversions of the
R and F labels always succeed, so the except branch is dead). -/
def segmentLabel (r f : ℕ) : String :=
  if 4 ≤ r ∧ 4 ≤ f then "Champions"
  else if r ≤ 2 ∧ 4 ≤ f then "At Risk"
  else "Regular"

/-- Columns of the frame returned on empty input (line 22 of
dashboard_logic.py). -/
def rfmEmptyColumns : List String :=
  ["Customer_ID", "Recency", "Frequency", "Monetary", "Segment"]

/-- Columns of the frame returned on non-empty input: the three score
columns R, F and M are added by the loop, Segment by the apply. -/
def rfmColumns : List String :=
  ["Customer_ID", "Recency", "Frequency", "Monetary", "R", "F", "M", "Segment"]

/-- Rows of the result of calculate_rfm on a non-empty frame: one row per
group key, carrying the three aggregate columns, the three score columns
(read off at the row position) and the segment label. -/
def rfmNonEmpty (df : List Order) (snapshot : ℤ) : List RFMRow :=
  let keys := groupKeys df
  let recencies := keys.map (fun c => recencyOf snapshot (customerRows df c))
  let frequencies := keys.map (fun c => frequencyOf (customerRows df c))
  let monetaries := keys.map (fun c => monetaryOf (customerRows df c))
  let rScores := scoreColumn (recencies.map (Int.cast : ℤ → ℚ)) [5, 4, 3, 2, 1]
  let fScores := scoreColumn (frequencies.map (Nat.cast : ℕ → ℚ)) [1, 2, 3, 4, 5]
  let mScores := scoreColumn monetaries [1, 2, 3, 4, 5]
  keys.enum.map (fun p =>
    { customer_id := p.2
      recency := recencyOf snapshot (customerRows df p.2)
      frequency := frequencyOf (customerRows df p.2)
      monetary := monetaryOf (customerRows df p.2)
      r := rScores.getD p.1 3
      f := fScores.getD p.1 3
      m := mScores.getD p.1 3
      segment := segmentLabel (rScores.getD p.1 3) (fScores.getD p.1 3) })

/-- calculate_rfm of dashboard_logic.py lines 10-56. -/
def calculate_rfm (df : List Order) (snapshot_date : Option ℤ) : RFMResult :=
  if df.isEmpty then ⟨rfmEmptyColumns, []⟩
  else ⟨rfmColumns,
    rfmNonEmpty df (snapshot_date.getD (maxDate (df.map Order.order_date) + 1))⟩

lemma calculate_rfm_of_ne_nil (df : List Order) (s : Option ℤ) (h : df ≠ []) :
    calculate_rfm df s =
      ⟨rfmColumns, rfmNonEmpty df (s.getD (maxDate (df.map Order.order_date) + 1))⟩ := by
  cases df with
  | nil => exact absurd rfl h
  | cons r t => rfl

lemma getD_mem_of_lt {α : Type} {l : List α} {i : ℕ} (h : i < l.length) (d : α) :
    l.getD i d ∈ l := by
  rw [List.getD_eq_getElem?_getD, List.getElem?_eq_getElem h]
  simp [List.getElem_mem]

lemma groupKeys_nodup (df : List Order) : (groupKeys df).Nodup :=
  (List.perm_insertionSort (· ≤ ·) (df.map Order.customer_id).dedup).nodup_iff.mpr
    (List.nodup_dedup _)

lemma groupKeys_mem (df : List Order) (c : ℕ) :
    c ∈ groupKeys df ↔ c ∈ df.map Order.customer_id :=
  ((List.perm_insertionSort (· ≤ ·) (df.map Order.customer_id).dedup).mem_iff).trans
    List.mem_dedup

lemma rfmNonEmpty_map_customer_id (df : List Order) (snapshot : ℤ) :
    (rfmNonEmpty df snapshot).map RFMRow.customer_id = groupKeys df := by
  simp only [rfmNonEmpty]
  rw [List.map_map]
  exact List.enum_map_snd _

/-- C1: on a non-empty frame the RFM output has exactly one row per
distinct Customer_ID of the input, Frequency is the number of input rows
of that customer and Monetary the sum of their Sales. -/
theorem C1_rfm_one_row_per_customer (df : List Order) (s : Option ℤ) (h : df ≠ []) :
    ((calculate_rfm df s).rows.map RFMRow.customer_id).Nodup ∧
    (∀ c : ℕ, c ∈ (calculate_rfm df s).rows.map RFMRow.customer_id ↔
      c ∈ df.map Order.customer_id) ∧
    ∀ row ∈ (calculate_rfm df s).rows,
      row.frequency = (df.filter (fun o => o.customer_id == row.customer_id)).length ∧
      row.monetary =
        ((df.filter (fun o => o.customer_id == row.customer_id)).map Order.sales).sum := by
  rw [calculate_rfm_of_ne_nil df s h]
  refine ⟨?_, ?_, ?_⟩
  · rw [rfmNonEmpty_map_customer_id]
    exact groupKeys_nodup df
  · intro c
    rw [rfmNonEmpty_map_customer_id]
    exact groupKeys_mem df c
  · intro row hrow
    simp only [rfmNonEmpty] at hrow
    obtain ⟨p, hp, rfl⟩ := List.mem_map.mp hrow
    exact ⟨rfl, rfl⟩

/-- The three-order table used to witness C1: customer 7 has two orders,
customer 2 one order. -/
def rfmWitnessDf : List Order := [⟨0, 7, 1, 10⟩, ⟨3, 7, 2, 5⟩, ⟨4, 2, 3, 8⟩]

/-- Witness for C1 at the concrete three-order table. -/
theorem C1_witness :
    ((calculate_rfm rfmWitnessDf none).rows.map RFMRow.customer_id).Nodup ∧
    (∀ c : ℕ, c ∈ (calculate_rfm rfmWitnessDf none).rows.map RFMRow.customer_id ↔
      c ∈ rfmWitnessDf.map Order.customer_id) ∧
    ∀ row ∈ (calculate_rfm rfmWitnessDf none).rows,
      row.frequency = (rfmWitnessDf.filter (fun o => o.customer_id == row.customer_id)).length ∧
      row.monetary =
        ((rfmWitnessDf.filter (fun o => o.customer_id == row.customer_id)).map Order.sales).sum :=
  C1_rfm_one_row_per_customer rfmWitnessDf none (by exact List.cons_ne_nil _ _)

lemma ranksFrom_length (all : List ℚ) (prev l : List ℚ) :
    (ranksFrom all prev l).length = l.length := by
  induction l generalizing prev with
  | nil => rfl
  | cons x xs ih => simp [ranksFrom, ih]

lemma rankFirst_length (l : List ℚ) : (rankFirst l).length = l.length :=
  ranksFrom_length l [] l

lemma qcut5_some_length {vals : List ℚ} {labels : List ℕ} {scores : List ℕ}
    (h : qcut5 vals labels = some scores) : scores.length = vals.length := by
  unfold qcut5 at h
  split at h
  · simp only [Option.some.injEq] at h
    subst h
    simp
  · exact absurd h (by simp)

lemma scoreColumn_length (metric : List ℚ) (labels : List ℕ) :
    (scoreColumn metric labels).length = metric.length := by
  unfold scoreColumn
  split
  · rename_i scores heq
    rw [qcut5_some_length heq, List.length_map, rankFirst_length]
  · simp

lemma binOf_bounds (edges : List ℚ) (v : ℚ) :
    1 ≤ binOf edges v ∧ binOf edges v ≤ 5 := by
  unfold binOf
  split_ifs <;> omega

lemma scoreColumn_eq_three_or_mem {metric : List ℚ} {labels : List ℕ}
    (hlab : labels.length = 5) :
    ∀ x ∈ scoreColumn metric labels, x = 3 ∨ x ∈ labels := by
  intro x hx
  unfold scoreColumn at hx
  split at hx
  · rename_i scores heq
    unfold qcut5 at heq
    split at heq
    · simp only [Option.some.injEq] at heq
      subst heq
      obtain ⟨v, hv, rfl⟩ := List.mem_map.mp hx
      right
      have hb := binOf_bounds (qcutEdges ((rankFirst metric).map (Nat.cast : ℕ → ℚ))) v
      exact getD_mem_of_lt (by omega) 0
    · exact absurd heq (by simp)
  · obtain ⟨w, hw, rfl⟩ := List.mem_map.mp hx
    left
    rfl

lemma rankFirst_singleton (v : ℚ) : rankFirst [v] = [1] := by
  simp [rankFirst, ranksFrom, List.filter_cons, lt_irrefl]

lemma qcut5_one_singleton (labels : List ℕ) : qcut5 [(1 : ℚ)] labels = none := by
  norm_num [qcut5, qcutEdges, quantileEdge, List.insertionSort, List.orderedInsert,
    List.range_succ, List.dedup_cons_of_mem, List.dedup_cons_of_not_mem]

lemma scoreColumn_singleton (v : ℚ) (labels : List ℕ) : scoreColumn [v] labels = [3] := by
  unfold scoreColumn
  rw [rankFirst_singleton]
  simp only [List.map_cons, List.map_nil, Nat.cast_one]
  rw [qcut5_one_singleton]

lemma scoreColumn_getD_mem (metric : List ℚ) (labels : List ℕ) (i : ℕ)
    (hlab : labels.length = 5) (hsub : ∀ y ∈ labels, y ∈ ([1, 2, 3, 4, 5] : List ℕ))
    (hi : i < metric.length) :
    (scoreColumn metric labels).getD i 3 ∈ ([1, 2, 3, 4, 5] : List ℕ) := by
  have hm := getD_mem_of_lt (l := scoreColumn metric labels) (i := i)
    (by rw [scoreColumn_length]; exact hi) 3
  rcases scoreColumn_eq_three_or_mem hlab _ hm with h3 | hmem
  · rw [h3]
    decide
  · exact hsub _ hmem

lemma rfmNonEmpty_single (df : List Order) (snap : ℤ) (c : ℕ)
    (hc : groupKeys df = [c]) :
    rfmNonEmpty df snap =
      [{ customer_id := c
         recency := recencyOf snap (customerRows df c)
         frequency := frequencyOf (customerRows df c)
         monetary := monetaryOf (customerRows df c)
         r := 3
         f := 3
         m := 3
         segment := segmentLabel 3 3 }] := by
  simp only [rfmNonEmpty, hc, List.map_cons, List.map_nil, scoreColumn_singleton]
  rfl

set_option maxHeartbeats 1600000 in
/-- C2 amended: on every non-empty frame every R and F score is in
{1,2,3,4,5}, calculate_rfm is total (the ValueError of the degenerate
binning is caught inside), and when there is exactly one distinct
customer the quantile edges collapse, qcut fails and both scores fall
back to the neutral 3. -/
theorem C2_amended_score_range (df : List Order) (s : Option ℤ) (h : df ≠ []) :
    ∀ row ∈ (calculate_rfm df s).rows,
      row.r ∈ ([1, 2, 3, 4, 5] : List ℕ) ∧ row.f ∈ ([1, 2, 3, 4, 5] : List ℕ) ∧
      ((groupKeys df).length = 1 → row.r = 3 ∧ row.f = 3) := by
  rw [calculate_rfm_of_ne_nil df s h]
  intro row hrow
  refine ⟨?_, ?_, ?_⟩
  · have hrow2 := hrow
    simp only [rfmNonEmpty] at hrow2
    obtain ⟨p, hp, rfl⟩ := List.mem_map.mp hrow2
    have hp1 : p.1 < (groupKeys df).length :=
      (List.getElem?_eq_some.mp (List.mem_enum_iff_getElem?.mp hp)).1
    exact scoreColumn_getD_mem _ [5, 4, 3, 2, 1] p.1 rfl (by decide) (by simpa using hp1)
  · have hrow2 := hrow
    simp only [rfmNonEmpty] at hrow2
    obtain ⟨p, hp, rfl⟩ := List.mem_map.mp hrow2
    have hp1 : p.1 < (groupKeys df).length :=
      (List.getElem?_eq_some.mp (List.mem_enum_iff_getElem?.mp hp)).1
    exact scoreColumn_getD_mem _ [1, 2, 3, 4, 5] p.1 rfl (by decide) (by simpa using hp1)
  · intro hk
    obtain ⟨c, hc⟩ := List.length_eq_one.mp hk
    rw [rfmNonEmpty_single df _ c hc] at hrow
    simp only [List.mem_singleton] at hrow
    subst hrow
    exact ⟨rfl, rfl⟩

/-- A one-order table: a single distinct customer. -/
def rfmSingleDf : List Order := [⟨0, 4, 1, 10⟩]

lemma rfmSingle_rows_eval :
    (calculate_rfm rfmSingleDf none).rows =
      [{ customer_id := 4, recency := 1, frequency := 1, monetary := 10,
         r := 3, f := 3, m := 3, segment := "Regular" }] := by
  rw [calculate_rfm_of_ne_nil rfmSingleDf none (by exact List.cons_ne_nil _ _),
    rfmNonEmpty_single rfmSingleDf _ 4 (by decide)]
  norm_num [recencyOf, frequencyOf, monetaryOf, customerRows, maxDate, segmentLabel,
    rfmSingleDf, List.filter_cons, Option.getD_none]

/-- Witness for C2 amended at the one-customer table and its single
output row. -/
theorem C2_amended_witness :
    ({ customer_id := 4, recency := 1, frequency := 1, monetary := 10,
       r := 3, f := 3, m := 3, segment := "Regular" } : RFMRow).r ∈ ([1, 2, 3, 4, 5] : List ℕ) ∧
    ({ customer_id := 4, recency := 1, frequency := 1, monetary := 10,
       r := 3, f := 3, m := 3, segment := "Regular" } : RFMRow).f ∈ ([1, 2, 3, 4, 5] : List ℕ) ∧
    ((groupKeys rfmSingleDf).length = 1 →
      ({ customer_id := 4, recency := 1, frequency := 1, monetary := 10,
         r := 3, f := 3, m := 3, segment := "Regular" } : RFMRow).r = 3 ∧
      ({ customer_id := 4, recency := 1, frequency := 1, monetary := 10,
         r := 3, f := 3, m := 3, segment := "Regular" } : RFMRow).f = 3) :=
  C2_amended_score_range rfmSingleDf none (by exact List.cons_ne_nil _ _) _
    (by rw [rfmSingle_rows_eval]; exact List.mem_singleton.mpr rfl)

/-- A two-order table with two distinct customers, one order each. -/
def rfmPairDf : List Order := [⟨0, 1, 1, 10⟩, ⟨5, 2, 2, 20⟩]

lemma rfmPair_keys : groupKeys rfmPairDf = [1, 2] := by decide

lemma qcutEdges_pair : qcutEdges [(1 : ℚ), 2] = [1, 6/5, 7/5, 8/5, 9/5, 2] := by
  norm_num [qcutEdges, quantileEdge, List.insertionSort, List.orderedInsert,
    List.range_succ]

lemma qcut5_pair (labels : List ℕ) :
    qcut5 [(1 : ℚ), 2] labels = some [labels.getD 0 0, labels.getD 4 0] := by
  unfold qcut5
  rw [qcutEdges_pair]
  rw [if_pos (by norm_num [List.dedup_cons_of_not_mem, List.dedup_cons_of_mem])]
  norm_num [binOf, qcutEdges_pair, List.getD_cons_zero, List.getD_cons_succ]

lemma rankFirst_pair_eq : rankFirst [(1 : ℚ), 1] = [1, 2] := by
  norm_num [rankFirst, ranksFrom, List.filter_cons]

lemma scoreColumn_pair_flat (labels : List ℕ) :
    scoreColumn [(1 : ℚ), 1] labels = [labels.getD 0 0, labels.getD 4 0] := by
  unfold scoreColumn
  rw [rankFirst_pair_eq]
  norm_num [qcut5_pair]

lemma rfmPair_f_eval :
    (calculate_rfm rfmPairDf none).rows.map RFMRow.f = [1, 5] := by
  rw [calculate_rfm_of_ne_nil rfmPairDf none (by exact List.cons_ne_nil _ _)]
  simp only [rfmNonEmpty, rfmPair_keys]
  have hfr : List.map (fun c => frequencyOf (customerRows rfmPairDf c)) [1, 2] = [1, 1] := by
    decide
  have henum : ([1, 2] : List ℕ).enum = [(0, 1), (1, 2)] := rfl
  rw [hfr, henum]
  have hcast : List.map (Nat.cast : ℕ → ℚ) [1, 1] = [(1 : ℚ), 1] := by norm_num
  rw [hcast, scoreColumn_pair_flat]
  simp only [List.map_cons, List.map_nil]
  rfl

lemma rfmPair_customers_eval :
    (calculate_rfm rfmPairDf none).rows.map RFMRow.customer_id = [1, 2] := by
  rw [calculate_rfm_of_ne_nil rfmPairDf none (by exact List.cons_ne_nil _ _),
    rfmNonEmpty_map_customer_id, rfmPair_keys]

/-- C2 counterexample: on a table with two distinct customers, five
equal-size non-empty buckets cannot be formed (two is not a multiple of
five), yet the F scores are 1 and 5, not the neutral fallback 3. -/
theorem C2_counterexample :
    (calculate_rfm rfmPairDf none).rows.map RFMRow.customer_id = [1, 2] ∧
    (2 : ℕ) % 5 ≠ 0 ∧
    (calculate_rfm rfmPairDf none).rows.map RFMRow.f = [1, 5] ∧
    (calculate_rfm rfmPairDf none).rows.map RFMRow.f ≠ [3, 3] := by
  refine ⟨rfmPair_customers_eval, by decide, rfmPair_f_eval, ?_⟩
  rw [rfmPair_f_eval]
  decide

/-- C8 counterexample: on an empty frame the returned columns are only
Customer_ID, Recency, Frequency, Monetary, Segment, not the declared
seven-column output schema with R and F of the claim. -/
theorem C8_counterexample :
    (calculate_rfm [] none).columns =
      ["Customer_ID", "Recency", "Frequency", "Monetary", "Segment"] ∧
    (calculate_rfm [] none).columns ≠
      ["Customer_ID", "Recency", "Frequency", "Monetary", "R", "F", "Segment"] ∧
    (calculate_rfm [] none).rows = [] := by
  refine ⟨rfl, ?_, rfl⟩
  decide

/-- C8 amended: on an empty frame calculate_rfm raises no error and
returns a result with no rows whose columns are exactly Customer_ID,
Recency, Frequency, Monetary, Segment (without R and F). -/
theorem C8_amended_empty_result (s : Option ℤ) :
    calculate_rfm [] s = ⟨rfmEmptyColumns, []⟩ := rfl

/-! ## Input validator (dashboard_logic.py, validate_data) -/

/-- A row of a frame presented to validate_data, with the three critical
columns; a none value models a null (NaN/NaT) cell. -/
structure VRow where
  order_date : Option ℤ
  customer_id : Option ℕ
  sales : Option ℚ
deriving DecidableEq

/-- A frame presented to validate_data: the column names it carries, its
rows, and whether its Order_Date column has a datetime dtype. -/
structure VFrame where
  columns : List String
  rows : List VRow
  order_date_is_datetime : Bool
deriving DecidableEq

/-- The dict returned by validate_data. -/
structure VResult where
  valid : Bool
  errors : List String
deriving DecidableEq

/-- The fixed required-column set of validate_data. -/
def required_columns : List String :=
  ["Order_Date", "Customer_ID", "Order_ID", "Sales", "Profit", "Discount",
    "Region", "Category", "Segment"]

/-- The critical columns checked for null values. -/
def critical_cols : List String := ["Order_Date", "Customer_ID", "Sales"]

/-- df[col].isnull().any() for the three critical columns. -/
def hasNullIn (df : VFrame) (col : String) : Bool :=
  if col = "Order_Date" then df.rows.any (fun r => r.order_date.isNone)
  else if col = "Customer_ID" then df.rows.any (fun r => r.customer_id.isNone)
  else if col = "Sales" then df.rows.any (fun r => r.sales.isNone)
  else false

/-- (df[Sales] < 0).any(): a null cell compares false. -/
def hasNegativeSales (df : VFrame) : Bool :=
  df.rows.any (fun r =>
    match r.sales with
    | some s => decide (s < 0)
    | none => false)

/-- The message built for missing required columns. -/
def missingMessage (missing : List String) : String :=
  "Missing required columns: " ++ String.intercalate ", " missing

/-- validate_data of dashboard_logic.py lines 102-140, with the checks
appended to the errors list in source order; on an empty frame it returns
right after the emptiness check. -/
def validate_data (df : VFrame) : VResult :=
  let missing_cols := required_columns.filter (fun c => !(df.columns.contains c))
  let errors : List String :=
    if missing_cols.isEmpty then [] else [missingMessage missing_cols]
  if df.rows.isEmpty || df.columns.isEmpty then
    ⟨false, errors ++ ["DataFrame is empty"]⟩
  else
    let errors := errors ++
      (critical_cols.filter (fun c => df.columns.contains c && hasNullIn df c)).map
        (fun c => "Null values found in " ++ c)
    let errors := errors ++
      (if "Order_Date" ∈ df.columns ∧ df.order_date_is_datetime = false then
        ["Order_Date must be datetime type"] else [])
    let errors := errors ++
      (if "Sales" ∈ df.columns ∧ hasNegativeSales df = true then
        ["Warning: Negative sales values detected"] else [])
    ⟨errors.isEmpty, errors⟩

/-- The entries the missing-column check contributes. -/
def missingErrors (df : VFrame) : List String :=
  if (required_columns.filter (fun c => !(df.columns.contains c))).isEmpty then []
  else [missingMessage (required_columns.filter (fun c => !(df.columns.contains c)))]

/-- The entries the null checks contribute. -/
def nullErrors (df : VFrame) : List String :=
  (critical_cols.filter (fun c => df.columns.contains c && hasNullIn df c)).map
    (fun c => "Null values found in " ++ c)

/-- The entry the dtype check contributes. -/
def dtypeErrors (df : VFrame) : List String :=
  if "Order_Date" ∈ df.columns ∧ df.order_date_is_datetime = false then
    ["Order_Date must be datetime type"] else []

/-- The entry the negative-sales check contributes. -/
def salesWarnings (df : VFrame) : List String :=
  if "Sales" ∈ df.columns ∧ hasNegativeSales df = true then
    ["Warning: Negative sales values detected"] else []

/-- A frame whose only defect is a negative Sales value. -/
def negSalesFrame : VFrame :=
  { columns := required_columns
    rows := [⟨some 0, some 1, some (-5)⟩]
    order_date_is_datetime := true }

/-- An empty frame whose Order_Date column is not datetime typed. -/
def emptyBadTypeFrame : VFrame :=
  { columns := required_columns
    rows := []
    order_date_is_datetime := false }

/-- C9 counterexample: a frame whose only defect is negative Sales is
reported invalid, with the warning as its sole error, contradicting the
claimed valid = true; and on an empty frame with a non-datetime
Order_Date column the dtype check is skipped (the function returns right
after the emptiness check), so not every failing check contributes. -/
theorem C9_counterexample :
    (validate_data negSalesFrame).valid = false ∧
    (validate_data negSalesFrame).errors = ["Warning: Negative sales values detected"] ∧
    "Order_Date" ∈ emptyBadTypeFrame.columns ∧
    emptyBadTypeFrame.order_date_is_datetime = false ∧
    (validate_data emptyBadTypeFrame).errors = ["DataFrame is empty"] := by
  refine ⟨?_, ?_, by decide, rfl, ?_⟩ <;> decide

set_option maxHeartbeats 800000 in
/-- C9 amended: on a non-empty frame the checks run independently and in
order, each failing check contributing its entry; the emptiness check
short-circuits only the later checks on empty frames; the negative-sales
condition carries a warning prefix but still counts toward validity, so a
frame whose only defect is negative Sales comes back with valid = false. -/
theorem C9_amended_checks (df : VFrame) (hr : df.rows ≠ []) (hc : df.columns ≠ []) :
    (validate_data df).errors =
      missingErrors df ++ nullErrors df ++ dtypeErrors df ++ salesWarnings df ∧
    ((validate_data df).valid = true ↔ (validate_data df).errors = []) ∧
    (missingErrors df = [] → nullErrors df = [] → dtypeErrors df = [] →
      salesWarnings df ≠ [] → (validate_data df).valid = false) := by
  have hemp : (df.rows.isEmpty || df.columns.isEmpty) = false := by
    simp [List.isEmpty_iff, hr, hc]
  refine ⟨?_, ?_, ?_⟩
  · simp only [validate_data, hemp, Bool.false_eq_true, if_false,
      missingErrors, nullErrors, dtypeErrors, salesWarnings, List.append_assoc]
  · simp only [validate_data, hemp, Bool.false_eq_true, if_false]
    constructor
    · intro hv
      exact List.isEmpty_iff.mp hv
    · intro hv
      rw [hv]
      rfl
  · intro h1 h2 h3 h4
    simp only [validate_data, hemp, Bool.false_eq_true, if_false,
      missingErrors, nullErrors, dtypeErrors, salesWarnings] at h1 h2 h3 h4 ⊢
    rw [h1, h2, h3]
    simp only [List.nil_append]
    have hcond : ("Sales" ∈ df.columns ∧ hasNegativeSales df = true) := by
      by_contra hno
      exact h4 (if_neg hno)
    rw [if_pos hcond]
    rfl

/-- Witness for C9 amended at the negative-sales frame. -/
theorem C9_amended_witness :
    (validate_data negSalesFrame).errors =
      missingErrors negSalesFrame ++ nullErrors negSalesFrame ++
        dtypeErrors negSalesFrame ++ salesWarnings negSalesFrame ∧
    ((validate_data negSalesFrame).valid = true ↔
      (validate_data negSalesFrame).errors = []) ∧
    (missingErrors negSalesFrame = [] → nullErrors negSalesFrame = [] →
      dtypeErrors negSalesFrame = [] → salesWarnings negSalesFrame ≠ [] →
      (validate_data negSalesFrame).valid = false) :=
  C9_amended_checks negSalesFrame (by exact List.cons_ne_nil _ _)
    (by exact List.cons_ne_nil _ _)

/-! ## Frame effects: none of the three functions mutates the input frame

calculate_roi_impact is the only one of the three functions whose body
performs in-place dataframe updates (the masked loc assignment, the
inplace fillna and the New_Profit column assignment); they all target
sim_df, the copy made on line 79.  The run is modelled over a store of
named frames: df.copy() binds an independent frame to the name sim_df,
and every in-place statement updates the frame named by the statement.
calculate_rfm only assigns into the fresh frame produced by groupby/agg
and validate_data performs no assignment at all, so their runs return the
caller frame untouched beside the pure result. -/

/-- A row of a frame in the simulator store: the three input columns plus
the two columns the simulation may add (absent columns are none). -/
structure SimRow where
  discount : ℚ
  sales : ℚ
  profit : ℚ
  new_sales : Option ℚ
  new_profit : Option ℚ
deriving DecidableEq

/-- A store of named frames. -/
def SimStore : Type := String → List SimRow

/-- Binding a frame name to a value in the store. -/
def setFrame (store : SimStore) (frame : String) (v : List SimRow) : SimStore :=
  fun k => if k = frame then v else store k

/-- calculate_roi_impact as a store transformer: the result together with
the store after the call.  Statement for statement, every update of the
source targets the name sim_df. -/
def roiStoreRun (store : SimStore) (discount_cap elasticity : ℚ) :
    ROIResult × SimStore :=
  if (store "df").isEmpty then (⟨0, 0, 0, 0⟩, store)
  else
    let s1 := setFrame store "sim_df" (store "df")
    let s2 := setFrame s1 "sim_df"
      ((s1 "sim_df").map (fun r =>
        if discount_cap < r.discount then
          { r with
            new_sales := some (r.sales * (1 - (r.discount - discount_cap) * elasticity)) }
        else r))
    let s3 := setFrame s2 "sim_df"
      ((s2 "sim_df").map (fun r => { r with new_sales := some (r.new_sales.getD r.sales) }))
    let s4 := setFrame s3 "sim_df"
      ((s3 "sim_df").map (fun r =>
        { r with new_profit := some (r.new_sales.getD 0 - (r.sales - r.profit)) }))
    (⟨((s4 "sim_df").map SimRow.profit).sum,
      ((s4 "sim_df").map (fun r => r.new_profit.getD 0)).sum,
      ((s4 "sim_df").map (fun r => r.new_profit.getD 0)).sum -
        ((s4 "sim_df").map SimRow.profit).sum,
      ((s4 "sim_df").map SimRow.sales).sum -
        ((s4 "sim_df").map (fun r => r.new_sales.getD 0)).sum⟩,
     s4)

/-- calculate_rfm as a pair of pure result and caller frame after the
call: all column assignments of the source write into the fresh frame
rfm built by groupby/agg, never into df. -/
def rfmRun (df : List Order) (snapshot_date : Option ℤ) : RFMResult × List Order :=
  (calculate_rfm df snapshot_date, df)

/-- validate_data as a pair of pure result and caller frame after the
call: the source only reads df. -/
def validateRun (df : VFrame) : VResult × VFrame :=
  (validate_data df, df)

/-- C10: after any of the three calls the frame the caller passed in is
unchanged: the roi simulation run leaves the frame named df of the store
exactly as it was (all its writes go to the copy sim_df), and the rfm and
validation runs return the caller frame as passed. -/
theorem C10_no_input_mutation (store : SimStore) (cap el : ℚ)
    (odf : List Order) (s : Option ℤ) (vdf : VFrame) :
    (roiStoreRun store cap el).2 "df" = store "df" ∧
    (rfmRun odf s).2 = odf ∧
    (validateRun vdf).2 = vdf := by
  refine ⟨?_, rfl, rfl⟩
  unfold roiStoreRun
  split
  · rfl
  · simp only [setFrame]
    rw [if_neg (by decide : ¬ ("df" : String) = "sim_df")]
    rw [if_neg (by decide : ¬ ("df" : String) = "sim_df")]
    rw [if_neg (by decide : ¬ ("df" : String) = "sim_df")]
    rw [if_neg (by decide : ¬ ("df" : String) = "sim_df")]

end Superstore
